import Mathlib

/-!
Shallow embedding of the behavioral analytics core of the
`participation-architecture` repository (`analysis.py` and
`src/targeting.py`).

Timestamps are modelled as epoch seconds (`ℤ`); `datetime.fromtimestamp`
is strictly monotone in epoch seconds, so every comparison and difference
in the Python code is mirrored on the integers.  Python floats are
modelled as rationals (`ℚ`).  A pandas `DataFrame` of vote rows is a
`List VoteRow`; `sort_values` is modelled by `List.insertionSort` (the
claims proved below never depend on the order of rows with equal keys).
-/

/-- One raw vote inside a proposal of the input JSON.  `vp` is optional in
the input (`vote.get("vp", 0)`). -/
structure VoteInput where
  voter : String
  created : ℤ
  vp : Option ℚ
  choice : ℤ
deriving DecidableEq, Repr

/-- One proposal of the input JSON with its embedded votes. -/
structure ProposalInput where
  id : String
  title : String
  created : ℤ
  votes : List VoteInput
deriving DecidableEq, Repr

/-- The raw dataset handed to `BehavioralAnalyzer.__init__`. -/
structure Dataset where
  proposals : List ProposalInput
deriving DecidableEq, Repr

/-- One row of `self.df_votes`, as built in `_prepare_dataframe`. -/
structure VoteRow where
  proposal_id : String
  proposal_title : String
  proposal_created : ℤ
  voter : String
  vote_time : ℤ
  voting_power : ℚ
  choice : ℤ
deriving DecidableEq, Repr

/-- The flat `votes_list` built by the two nested loops of
`_prepare_dataframe`, before sorting. -/
def votesList (d : Dataset) : List VoteRow :=
  (d.proposals.map (fun p => p.votes.map (fun v =>
    { proposal_id := p.id
      proposal_title := p.title
      proposal_created := p.created
      voter := v.voter
      vote_time := v.created
      voting_power := v.vp.getD 0
      choice := v.choice }))).flatten

/-- Row order used by `df.sort_values("vote_time")`. -/
def vtLE (a b : VoteRow) : Prop := a.vote_time ≤ b.vote_time

instance : DecidableRel vtLE := fun a b => inferInstanceAs (Decidable (a.vote_time ≤ b.vote_time))

instance : IsTotal VoteRow vtLE := ⟨fun a b => Int.le_total a.vote_time b.vote_time⟩

instance : IsTrans VoteRow vtLE := ⟨fun _ _ _ h₁ h₂ => le_trans h₁ h₂⟩

/-- Model of `self.df_votes`: the flattened vote rows sorted ascending by
`vote_time`. -/
def df_votes (d : Dataset) : List VoteRow :=
  List.insertionSort vtLE (votesList d)

/-- Model of `_prepare_dataframe` as actually executed: when `votes_list` is empty,
`pd.DataFrame([])` has no columns at all, so `df.sort_values("vote_time")`
raises `KeyError: 'vote_time'`; otherwise it returns the sorted frame. -/
def prepare_dataframe (d : Dataset) : Except String (List VoteRow) :=
  let vl := votesList d
  if vl.isEmpty then .error "KeyError: vote_time"
  else .ok (List.insertionSort vtLE vl)

/-- Number of seconds in a day, the unit behind `timedelta(days=n)` and
`Timedelta.days`. -/
def daySecs : ℤ := 86400

/-- Round half to even on the rationals, the rounding mode of Python's
built-in `round` (we model the real-valued behaviour of `round`, not
binary floating-point representation artifacts). -/
def roundHalfEven (x : ℚ) : ℤ :=
  let f := ⌊x⌋
  if x - f < 1 / 2 then f
  else if x - f > 1 / 2 then f + 1
  else if f % 2 = 0 then f else f + 1

/-- Python's `round(x, n)` on our rational model of floats. -/
def pyRound (x : ℚ) (n : ℕ) : ℚ :=
  (roundHalfEven (x * 10 ^ n) : ℚ) / 10 ^ n

/-- Model of `astype(int)` / `int(...)`: truncation toward zero. -/
def pyTrunc (q : ℚ) : ℤ := if 0 ≤ q then ⌊q⌋ else ⌈q⌉

/-- Model of `series.diff().dt.days.dropna()`: whole-day floor differences of
consecutive entries (`Timedelta.days` floors toward `-∞`, i.e. `fdiv`). -/
def gapsOf : List ℤ → List ℤ
  | a :: b :: t => Int.fdiv (b - a) daySecs :: gapsOf (b :: t)
  | _ => []

/-- Model of `series.max()` on a list (the nonempty case is the one the code
reaches; on `[]` we return 0, a value the code never uses). -/
def listMax : List ℤ → ℤ
  | [] => 0
  | [a] => a
  | a :: b :: t => max a (listMax (b :: t))

/-- Model of `pd.Series.unique()`: the distinct values in order of first
occurrence (`List.dedup` keeps last occurrences, so we reverse twice). -/
def pdUnique (l : List String) : List String :=
  (l.reverse.dedup).reverse

/-- Model of `BehavioralAnalyzer.calculate_participation_rate(voter, window_days)`,
with `now` (the value of `datetime.now()`) made explicit. -/
def calculate_participation_rate (rows : List VoteRow) (voter : String)
    (window_days : ℤ) (now : ℤ) : ℚ :=
  let cutoff := now - window_days * daySecs
  let recent_proposals :=
    (((rows.filter (fun r => decide (cutoff ≤ r.proposal_created))).map
      (·.proposal_id)).dedup).length
  let voter_votes :=
    (((rows.filter (fun r => r.voter == voter &&
        decide (cutoff ≤ r.proposal_created))).map (·.proposal_id)).dedup).length
  if recent_proposals = 0 then 0
  else (voter_votes : ℚ) / (recent_proposals : ℚ)

/-- Result dictionary of `calculate_fatigue_index`.  The keys
`avg_gap_days` and `total_votes` are absent from the dictionary returned
on the `< 2` votes branch, hence `Option`. -/
structure FatigueMetrics where
  fatigue_score : ℚ
  longest_break_days : ℤ
  avg_gap_days : Option ℚ
  burnout_detected : Bool
  trend : String
  total_votes : Option ℕ
deriving DecidableEq, Repr

/-- Model of `BehavioralAnalyzer.calculate_fatigue_index(voter)` with `now`
explicit. -/
def calculate_fatigue_index (rows : List VoteRow) (voter : String)
    (now : ℤ) : FatigueMetrics :=
  let voter_data := rows.filter (fun r => r.voter == voter)
  if voter_data.length < 2 then
    { fatigue_score := 0
      longest_break_days := 0
      avg_gap_days := none
      burnout_detected := false
      trend := "insufficient_data"
      total_votes := none }
  else
    let gaps := gapsOf (voter_data.map (·.vote_time))
    let avg_gap : ℚ := (gaps.sum : ℚ) / (gaps.length : ℚ)
    let longest_break := listMax gaps
    let recent_gap : ℤ := if 0 < gaps.length then (gaps.getLast?).getD 0 else 0
    let burnout_threshold := avg_gap * 2
    let burnout_detected := decide ((recent_gap : ℚ) > burnout_threshold)
    let midpoint := now - 90 * daySecs
    let recent_votes := (voter_data.filter (fun r => decide (midpoint ≤ r.vote_time))).length
    let older_votes := (voter_data.filter (fun r => decide (r.vote_time < midpoint))).length
    let trend :=
      if 0 < older_votes then
        if recent_votes < older_votes then "declining" else "stable"
      else "new_delegate"
    let fatigue_score : ℚ :=
      min 100 ((longest_break : ℚ) / 30 * 30 +
        (if burnout_detected then 50 else 0) +
        (if trend == "declining" then 20 else 0))
    { fatigue_score := pyRound fatigue_score 2
      longest_break_days := longest_break
      avg_gap_days := some (pyRound avg_gap 1)
      burnout_detected := burnout_detected
      trend := trend
      total_votes := some voter_data.length }

/-- One row of the aggregated table of `analyze_all_delegates`. -/
structure DelegateRecord where
  delegate : String
  participation_30d : ℚ
  participation_90d : ℚ
  fatigue_score : ℚ
  longest_break_days : ℤ
  avg_gap_days : Option ℚ
  burnout_detected : Bool
  trend : String
  total_votes : Option ℕ
deriving DecidableEq, Repr

/-- The record assembled for one voter inside the loop of
`analyze_all_delegates`; the three `now` arguments model the three
separate `datetime.now()` reads performed by the two participation calls
and the fatigue call. -/
def analyze_row (rows : List VoteRow) (v : String)
    (now30 now90 nowFat : ℤ) : DelegateRecord :=
  let p30 := calculate_participation_rate rows v 30 now30
  let p90 := calculate_participation_rate rows v 90 now90
  let f := calculate_fatigue_index rows v nowFat
  { delegate := v
    participation_30d := pyRound p30 3
    participation_90d := pyRound p90 3
    fatigue_score := f.fatigue_score
    longest_break_days := f.longest_break_days
    avg_gap_days := f.avg_gap_days
    burnout_detected := f.burnout_detected
    trend := f.trend
    total_votes := f.total_votes }

/-- Row order of `df_results.sort_values("fatigue_score", ascending=False)`. -/
def fatGE (a b : DelegateRecord) : Prop := b.fatigue_score ≤ a.fatigue_score

instance : DecidableRel fatGE := fun a b => inferInstanceAs (Decidable (b.fatigue_score ≤ a.fatigue_score))

instance : IsTotal DelegateRecord fatGE := ⟨fun a b => le_total b.fatigue_score a.fatigue_score⟩

instance : IsTrans DelegateRecord fatGE := ⟨fun _ _ _ h₁ h₂ => le_trans h₂ h₁⟩

/-- Model of `BehavioralAnalyzer.analyze_all_delegates()` with a single explicit
`now` used for every time-windowed computation of the run. -/
def analyze_all_delegates (rows : List VoteRow) (now : ℤ) : List DelegateRecord :=
  let voters := pdUnique (rows.map (·.voter))
  List.insertionSort fatGE (voters.map (fun v => analyze_row rows v now now now))

/-- Model of `analyze_all_delegates` as literally executed: each iteration of the
voter loop performs three fresh `datetime.now()` reads (two inside the
participation calls, one inside the fatigue call); `clock k` is the value
returned by the `k`-th read. -/
def analyze_all_delegates_clocked (rows : List VoteRow) (clock : ℕ → ℤ) :
    List DelegateRecord :=
  let voters := pdUnique (rows.map (·.voter))
  List.insertionSort fatGE
    ((voters.enum).map (fun p =>
      analyze_row rows p.2 (clock (3 * p.1)) (clock (3 * p.1 + 1)) (clock (3 * p.1 + 2))))

/-- Model of `groupby("voter")["voting_power"].mean()` for one voter. -/
def vpMean (rows : List VoteRow) (v : String) : ℚ :=
  let vs := (rows.filter (fun r => r.voter == v)).map (·.voting_power)
  vs.sum / (vs.length : ℚ)

/-- One row of the merged `df_targets` frame of
`WhaleSniper.get_high_value_targets`. -/
structure TargetRow extends DelegateRecord where
  avg_voting_power : ℤ
deriving DecidableEq, Repr

/-- The merge of the aggregated metrics with the per-voter mean voting
power, truncated to integer by `astype(int)` (steps 2–4 of
`get_high_value_targets`). -/
def merged_targets (d : Dataset) (now : ℤ) : List TargetRow :=
  let rows := df_votes d
  (analyze_all_delegates rows now).map (fun m =>
    { toDelegateRecord := m, avg_voting_power := pyTrunc (vpMean rows m.delegate) })

/-- Row order of step 6: descending by `avg_voting_power`, then
descending by `fatigue_score`. -/
def targGE (a b : TargetRow) : Prop :=
  b.avg_voting_power < a.avg_voting_power ∨
    (a.avg_voting_power = b.avg_voting_power ∧ b.fatigue_score ≤ a.fatigue_score)

instance : DecidableRel targGE := fun a b =>
  inferInstanceAs (Decidable (b.avg_voting_power < a.avg_voting_power ∨
    (a.avg_voting_power = b.avg_voting_power ∧ b.fatigue_score ≤ a.fatigue_score)))

instance : IsTotal TargetRow targGE := by
  constructor
  intro a b
  rcases lt_trichotomy a.avg_voting_power b.avg_voting_power with h | h | h
  · exact Or.inr (Or.inl h)
  · rcases le_total b.fatigue_score a.fatigue_score with hf | hf
    · exact Or.inl (Or.inr ⟨h, hf⟩)
    · exact Or.inr (Or.inr ⟨h.symm, hf⟩)
  · exact Or.inl (Or.inl h)

instance : IsTrans TargetRow targGE := by
  constructor
  intro a b c hab hbc
  rcases hab with h₁ | ⟨e₁, f₁⟩
  · rcases hbc with h₂ | ⟨e₂, _⟩
    · exact Or.inl (h₂.trans h₁)
    · exact Or.inl (e₂ ▸ h₁)
  · rcases hbc with h₂ | ⟨e₂, f₂⟩
    · exact Or.inl (e₁ ▸ h₂)
    · exact Or.inr ⟨e₁.trans e₂, f₂.trans f₁⟩

/-- The filter of step 5 of `get_high_value_targets`. -/
def targetCond (min_vp : ℤ) (t : TargetRow) : Bool :=
  decide (min_vp ≤ t.avg_voting_power) && decide ((50 : ℚ) < t.fatigue_score)

/-- Model of `WhaleSniper.get_high_value_targets(min_vp)` with `now` explicit. -/
def get_high_value_targets (d : Dataset) (now : ℤ) (min_vp : ℤ) : List TargetRow :=
  let rows := df_votes d
  let df_metrics := analyze_all_delegates rows now
  if df_metrics.isEmpty then []
  else
    let df_targets := df_metrics.map (fun m =>
      { toDelegateRecord := m, avg_voting_power := pyTrunc (vpMean rows m.delegate) })
    let targets := df_targets.filter (targetCond min_vp)
    List.insertionSort targGE targets

/-- Model of `get_high_value_targets` as literally executed, with the
`datetime.now()` reads of the underlying aggregation modelled by
`clock`. -/
def get_high_value_targets_clocked (d : Dataset) (clock : ℕ → ℤ) (min_vp : ℤ) :
    List TargetRow :=
  let rows := df_votes d
  let df_metrics := analyze_all_delegates_clocked rows clock
  if df_metrics.isEmpty then []
  else
    let df_targets := df_metrics.map (fun m =>
      { toDelegateRecord := m, avg_voting_power := pyTrunc (vpMean rows m.delegate) })
    let targets := df_targets.filter (targetCond min_vp)
    List.insertionSort targGE targets

/-- The subsequence of `df_votes` belonging to one voter (the
`voter_data` frame of `calculate_fatigue_index`). -/
def voter_rows (d : Dataset) (v : String) : List VoteRow :=
  (df_votes d).filter (fun r => r.voter == v)

/-- The whole-day floor gap sequence of one voter's timeline. -/
def voter_gaps (d : Dataset) (v : String) : List ℤ :=
  gapsOf ((voter_rows d v).map (·.vote_time))

/-- The local variable `avg_gap` of `calculate_fatigue_index`
(`gaps.mean()`). -/
def avg_gap (d : Dataset) (v : String) : ℚ :=
  ((voter_gaps d v).sum : ℚ) / ((voter_gaps d v).length : ℚ)

/-- The local variable `recent_gap` of `calculate_fatigue_index`
(`gaps.iloc[-1] if len(gaps) > 0 else 0`). -/
def recent_gap (d : Dataset) (v : String) : ℤ :=
  if 0 < (voter_gaps d v).length then ((voter_gaps d v).getLast?).getD 0 else 0

/-- The local variable `burnout_detected` of `calculate_fatigue_index`. -/
def burnout_of (d : Dataset) (v : String) : Bool :=
  decide ((recent_gap d v : ℚ) > avg_gap d v * 2)

/-- The local variable `recent_votes` of `calculate_fatigue_index`. -/
def recent_votes (d : Dataset) (v : String) (now : ℤ) : ℕ :=
  ((voter_rows d v).filter (fun r => decide (now - 90 * daySecs ≤ r.vote_time))).length

/-- The local variable `older_votes` of `calculate_fatigue_index`. -/
def older_votes (d : Dataset) (v : String) (now : ℤ) : ℕ :=
  ((voter_rows d v).filter (fun r => decide (r.vote_time < now - 90 * daySecs))).length

/-- The local variable `trend` of `calculate_fatigue_index`. -/
def trend_of (d : Dataset) (v : String) (now : ℤ) : String :=
  if 0 < older_votes d v now then
    if recent_votes d v now < older_votes d v now then "declining" else "stable"
  else "new_delegate"

/-- A dataset with zero proposals (hence zero vote records). -/
def emptyDataset : Dataset := { proposals := [] }

/-- One proposal with a single vote by voter `"a"` at epoch 0. -/
def oneVoteDataset : Dataset :=
  { proposals := [{ id := "p1"
                    title := "t1"
                    created := 0
                    votes := [{ voter := "a", created := 0, vp := some 100, choice := 1 }] }] }

/-- One proposal with two votes by `"a"` forty days apart and one vote by
`"b"` in between. -/
def twoVoteDataset : Dataset :=
  { proposals := [{ id := "p1"
                    title := "t1"
                    created := 0
                    votes := [{ voter := "a", created := 0, vp := some 60000, choice := 1 },
                              { voter := "a", created := 40 * 86400, vp := some 60000, choice := 1 },
                              { voter := "b", created := 86400, vp := some 10, choice := 2 }] }] }

/-! ### Helper lemmas -/

theorem df_votes_sorted (d : Dataset) : List.Sorted vtLE (df_votes d) :=
  List.sorted_insertionSort vtLE (votesList d)

theorem voter_rows_sorted (d : Dataset) (v : String) :
    List.Sorted vtLE (voter_rows d v) :=
  List.Pairwise.sublist (List.filter_sublist (df_votes d)) (df_votes_sorted d)

theorem times_chain (d : Dataset) (v : String) :
    List.Chain' (fun a b : ℤ => a ≤ b) ((voter_rows d v).map (·.vote_time)) := by
  apply List.Pairwise.chain'
  exact List.pairwise_map.mpr (voter_rows_sorted d v)

theorem gapsOf_length (ts : List ℤ) : (gapsOf ts).length = ts.length - 1 := by
  induction ts with
  | nil => simp [gapsOf]
  | cons a t ih =>
    cases t with
    | nil => simp [gapsOf]
    | cons b u =>
      simp [gapsOf] at ih ⊢
      omega

theorem gapsOf_nonneg {ts : List ℤ}
    (h : List.Chain' (fun a b : ℤ => a ≤ b) ts) :
    ∀ g ∈ gapsOf ts, 0 ≤ g := by
  induction ts with
  | nil => simp [gapsOf]
  | cons a t ih =>
    cases t with
    | nil => simp [gapsOf]
    | cons b u =>
      rw [List.chain'_cons] at h
      intro g hg
      rw [gapsOf, List.mem_cons] at hg
      rcases hg with rfl | hg
      · exact Int.fdiv_nonneg (by omega) (by decide)
      · exact ih h.2 g hg

theorem le_listMax {l : List ℤ} {x : ℤ} (hx : x ∈ l) : x ≤ listMax l := by
  induction l with
  | nil => simp at hx
  | cons a t ih =>
    cases t with
    | nil =>
      simp at hx
      simp [listMax, hx]
    | cons b u =>
      rw [List.mem_cons] at hx
      rcases hx with rfl | hx
      · simp [listMax]
      · exact le_trans (ih hx) (le_max_right _ _)

theorem listMax_mem {l : List ℤ} (hl : l ≠ []) : listMax l ∈ l := by
  induction l with
  | nil => simp at hl
  | cons a t ih =>
    cases t with
    | nil => simp [listMax]
    | cons b u =>
      rw [listMax]
      rcases max_choice a (listMax (b :: u)) with h | h
      · rw [h]; exact List.mem_cons_self _ _
      · rw [h]; exact List.mem_cons_of_mem a (ih (by simp))

theorem roundHalfEven_intCast (n : ℤ) : roundHalfEven (n : ℚ) = n := by
  unfold roundHalfEven
  norm_num

theorem pyRound_intCast (n : ℤ) (k : ℕ) : pyRound ((n : ℤ) : ℚ) k = (n : ℚ) := by
  unfold pyRound
  have h1 : ((n : ℚ)) * 10 ^ k = ((n * 10 ^ k : ℤ) : ℚ) := by push_cast; ring
  rw [h1, roundHalfEven_intCast]
  have h10 : ((10 : ℚ) ^ k) ≠ 0 := by positivity
  push_cast
  field_simp

theorem dedup_length_le_of_subset {α : Type} [DecidableEq α] {l₁ l₂ : List α}
    (h : l₁ ⊆ l₂) : l₁.dedup.length ≤ l₂.dedup.length := by
  rw [← List.card_toFinset, ← List.card_toFinset]
  exact Finset.card_le_card (fun a ha => by
    rw [List.mem_toFinset] at ha ⊢
    exact h ha)

theorem length_filter_le_of_imp {α : Type} {p q : α → Bool} (l : List α)
    (h : ∀ a, p a = true → q a = true) :
    (l.filter p).length ≤ (l.filter q).length := by
  induction l with
  | nil => simp
  | cons a t ih =>
    by_cases hp : p a = true
    · rw [List.filter_cons_of_pos hp, List.filter_cons_of_pos (h a hp)]
      simpa using ih
    · rw [List.filter_cons_of_neg (by simpa using hp)]
      by_cases hq : q a = true
      · rw [List.filter_cons_of_pos hq]
        exact le_trans ih (by simp)
      · rw [List.filter_cons_of_neg (by simpa using hq)]
        exact ih

theorem voter_gaps_length (d : Dataset) (v : String) :
    (voter_gaps d v).length = (voter_rows d v).length - 1 := by
  unfold voter_gaps
  rw [gapsOf_length, List.length_map]

theorem voter_gaps_nonneg (d : Dataset) (v : String) :
    ∀ g ∈ voter_gaps d v, 0 ≤ g :=
  gapsOf_nonneg (times_chain d v)

/-- Unfolding of `calculate_fatigue_index` on the `≥ 2` votes branch, with
every local variable of the Python function replaced by its named
transcription. -/
theorem fatigue_index_spec (d : Dataset) (v : String) (now : ℤ)
    (h : 2 ≤ (voter_rows d v).length) :
    calculate_fatigue_index (df_votes d) v now =
      { fatigue_score := pyRound (min 100 ((listMax (voter_gaps d v) : ℚ) / 30 * 30 +
            (if burnout_of d v then 50 else 0) +
            (if trend_of d v now == "declining" then 20 else 0))) 2
        longest_break_days := listMax (voter_gaps d v)
        avg_gap_days := some (pyRound (avg_gap d v) 1)
        burnout_detected := burnout_of d v
        trend := trend_of d v now
        total_votes := some (voter_rows d v).length } := by
  have h' : ¬ ((df_votes d).filter (fun r => r.voter == v)).length < 2 := by
    have : 2 ≤ ((df_votes d).filter (fun r => r.voter == v)).length := h
    omega
  unfold calculate_fatigue_index
  rw [if_neg h']
  rfl

/-! ### Claim theorems -/

/-- C7: the intended behavior (empty dataset ⇒ empty table propagated
through aggregation, health summary and targeting) is not what the code
does: on a dataset with zero proposals `votes_list` is empty,
`pd.DataFrame([])` has no columns, and `_prepare_dataframe` raises
`KeyError: 'vote_time'` inside the constructor, so no table is ever
produced. -/
theorem C7_empty_dataset_raises :
    prepare_dataframe emptyDataset = Except.error "KeyError: vote_time" := rfl

/-- C3: `calculate_participation_rate` returns the number of distinct
in-window proposals the voter voted on divided by the number of distinct
in-window proposals across all vote records, with sentinel `0.0` when the
denominator is zero, and the result always lies in `[0, 1]`. -/
theorem C3_participation_rate_bounds (d : Dataset) (voter : String)
    (window_days now : ℤ) :
    let cutoff := now - window_days * daySecs
    let den := ((((df_votes d).filter (fun r => decide (cutoff ≤ r.proposal_created))).map
        (·.proposal_id)).dedup).length
    let num := ((((df_votes d).filter (fun r => r.voter == voter &&
        decide (cutoff ≤ r.proposal_created))).map (·.proposal_id)).dedup).length
    calculate_participation_rate (df_votes d) voter window_days now
        = (if den = 0 then 0 else (num : ℚ) / (den : ℚ))
    ∧ 0 ≤ calculate_participation_rate (df_votes d) voter window_days now
    ∧ calculate_participation_rate (df_votes d) voter window_days now ≤ 1 := by
  intro cutoff den num
  have hsub : ((df_votes d).filter (fun r => r.voter == voter &&
      decide (cutoff ≤ r.proposal_created)))
      ⊆ ((df_votes d).filter (fun r => decide (cutoff ≤ r.proposal_created))) := by
    intro x hx
    simp only [List.mem_filter, Bool.and_eq_true] at hx
    exact List.mem_filter.mpr ⟨hx.1, hx.2.2⟩
  have hnd : num ≤ den :=
    dedup_length_le_of_subset (List.map_subset _ hsub)
  have hrate : calculate_participation_rate (df_votes d) voter window_days now
      = (if den = 0 then 0 else (num : ℚ) / (den : ℚ)) := rfl
  refine ⟨hrate, ?_, ?_⟩
  · rw [hrate]
    split
    · exact le_refl 0
    · positivity
  · rw [hrate]
    split
    · norm_num
    · rename_i hden
      rw [div_le_one (by exact_mod_cast Nat.pos_of_ne_zero hden)]
      exact_mod_cast hnd

/-- C6 counterexample: for a voter with a single vote the dictionary
returned by `calculate_fatigue_index` carries no `total_votes` key at
all, so the claim that the base-case record has an integer `total_votes`
field fails. -/
theorem C6_counterexample :
    ¬ ∃ n : ℕ,
      (calculate_fatigue_index (df_votes oneVoteDataset) "a" 0).total_votes = some n := by
  have h : (calculate_fatigue_index (df_votes oneVoteDataset) "a" 0).total_votes = none := by
    decide
  rintro ⟨n, hn⟩
  rw [h] at hn
  exact Option.noConfusion hn

/-- C6 amended: for every voter with fewer than 2 votes,
`calculate_fatigue_index` returns `fatigue_score = 0.0`,
`longest_break_days = 0`, `burnout_detected = false`,
`trend = insufficient_data`, and omits both `avg_gap_days` and
`total_votes` from the returned dictionary. -/
theorem C6_base_case (d : Dataset) (v : String) (now : ℤ)
    (h : (voter_rows d v).length < 2) :
    calculate_fatigue_index (df_votes d) v now =
      { fatigue_score := 0
        longest_break_days := 0
        avg_gap_days := none
        burnout_detected := false
        trend := "insufficient_data"
        total_votes := none } := by
  have h' : ((df_votes d).filter (fun r => r.voter == v)).length < 2 := h
  unfold calculate_fatigue_index
  rw [if_pos h']

theorem C6_base_case_witness :
    (voter_rows oneVoteDataset "a").length < 2 ∧
      calculate_fatigue_index (df_votes oneVoteDataset) "a" 0 =
        { fatigue_score := 0
          longest_break_days := 0
          avg_gap_days := none
          burnout_detected := false
          trend := "insufficient_data"
          total_votes := none } :=
  ⟨by decide, C6_base_case oneVoteDataset "a" 0 (by decide)⟩

/-- C5 counterexample: the claimed equivalence `trend = new_delegate ↔ no
votes older than 90 days` is not universal over all vote counts: a voter
with a single recent vote has zero older votes but trend
`insufficient_data`. -/
theorem C5_counterexample :
    ¬ (((calculate_fatigue_index (df_votes oneVoteDataset) "a" 0).trend = "new_delegate")
        ↔ older_votes oneVoteDataset "a" 0 = 0) := by
  decide

/-- Projection of `fatigue_index_spec`: the reported trend on the
`≥ 2` votes branch. -/
theorem fatigue_trend_proj (d : Dataset) (v : String) (now : ℤ)
    (h : 2 ≤ (voter_rows d v).length) :
    (calculate_fatigue_index (df_votes d) v now).trend = trend_of d v now := by
  rw [fatigue_index_spec d v now h]

/-- Projection of `fatigue_index_spec`: the reported burnout flag on the
`≥ 2` votes branch. -/
theorem fatigue_burnout_proj (d : Dataset) (v : String) (now : ℤ)
    (h : 2 ≤ (voter_rows d v).length) :
    (calculate_fatigue_index (df_votes d) v now).burnout_detected = burnout_of d v := by
  rw [fatigue_index_spec d v now h]

/-- C5 amended: for every voter with at least 2 votes, the trend is
`new_delegate` iff the voter has zero votes older than `now − 90` days;
otherwise it is `declining` exactly when the recent vote count is
strictly below the older vote count, and `stable` otherwise. -/
theorem C5_trend_classification (d : Dataset) (v : String) (now : ℤ)
    (h : 2 ≤ (voter_rows d v).length) :
    ((calculate_fatigue_index (df_votes d) v now).trend = "new_delegate"
      ↔ older_votes d v now = 0)
    ∧ (older_votes d v now ≠ 0 →
        ((calculate_fatigue_index (df_votes d) v now).trend = "declining"
          ↔ recent_votes d v now < older_votes d v now))
    ∧ (older_votes d v now ≠ 0 → ¬ recent_votes d v now < older_votes d v now →
        (calculate_fatigue_index (df_votes d) v now).trend = "stable") := by
  rw [fatigue_trend_proj d v now h]
  unfold trend_of
  by_cases ho : 0 < older_votes d v now
  · rw [if_pos ho]
    by_cases hr : recent_votes d v now < older_votes d v now
    · rw [if_pos hr]
      exact ⟨⟨fun he => absurd he (by decide), fun he => absurd he (by omega)⟩,
        fun _ => ⟨fun _ => hr, fun _ => rfl⟩,
        fun _ hnr => absurd hr hnr⟩
    · rw [if_neg hr]
      exact ⟨⟨fun he => absurd he (by decide), fun he => absurd he (by omega)⟩,
        fun _ => ⟨fun he => absurd he (by decide), fun hc => absurd hc hr⟩,
        fun _ _ => rfl⟩
  · rw [if_neg ho]
    exact ⟨⟨fun _ => by omega, fun _ => rfl⟩,
      fun hne => absurd (by omega : older_votes d v now = 0) hne,
      fun hne _ => absurd (by omega : older_votes d v now = 0) hne⟩

theorem C5_trend_classification_witness :
    2 ≤ (voter_rows twoVoteDataset "a").length ∧
      (((calculate_fatigue_index (df_votes twoVoteDataset) "a" (40 * 86400)).trend = "new_delegate"
        ↔ older_votes twoVoteDataset "a" (40 * 86400) = 0)
      ∧ (older_votes twoVoteDataset "a" (40 * 86400) ≠ 0 →
          ((calculate_fatigue_index (df_votes twoVoteDataset) "a" (40 * 86400)).trend = "declining"
            ↔ recent_votes twoVoteDataset "a" (40 * 86400) < older_votes twoVoteDataset "a" (40 * 86400)))
      ∧ (older_votes twoVoteDataset "a" (40 * 86400) ≠ 0 →
          ¬ recent_votes twoVoteDataset "a" (40 * 86400) < older_votes twoVoteDataset "a" (40 * 86400) →
          (calculate_fatigue_index (df_votes twoVoteDataset) "a" (40 * 86400)).trend = "stable")) :=
  ⟨by decide, C5_trend_classification twoVoteDataset "a" (40 * 86400) (by decide)⟩

/-- C4: for every voter with at least 2 votes, `burnout_detected` is true
iff the last element of the whole-day gap sequence (the gap between the
two most recent votes) strictly exceeds twice the mean of all inter-vote
gaps. -/
theorem C4_burnout_iff (d : Dataset) (v : String) (now : ℤ)
    (h : 2 ≤ (voter_rows d v).length) :
    (calculate_fatigue_index (df_votes d) v now).burnout_detected = true
      ↔ ((((voter_gaps d v).getLast?).getD 0 : ℚ)
          > ((voter_gaps d v).sum : ℚ) / ((voter_gaps d v).length : ℚ) * 2) := by
  rw [fatigue_burnout_proj d v now h]
  have hpos : 0 < (voter_gaps d v).length := by
    rw [voter_gaps_length]
    omega
  unfold burnout_of recent_gap avg_gap
  rw [if_pos hpos]
  simp only [decide_eq_true_eq]

theorem C4_burnout_iff_witness :
    2 ≤ (voter_rows twoVoteDataset "a").length ∧
      ((calculate_fatigue_index (df_votes twoVoteDataset) "a" (40 * 86400)).burnout_detected = true
        ↔ ((((voter_gaps twoVoteDataset "a").getLast?).getD 0 : ℚ)
            > ((voter_gaps twoVoteDataset "a").sum : ℚ)
                / ((voter_gaps twoVoteDataset "a").length : ℚ) * 2)) :=
  ⟨by decide, C4_burnout_iff twoVoteDataset "a" (40 * 86400) (by decide)⟩

/-- C10: a voter with exactly 2 votes never triggers burnout: the single
inter-vote gap equals both `recent_gap` and `avg_gap`, and a non-negative
gap is never strictly greater than twice itself. -/
theorem C10_two_votes_no_burnout (d : Dataset) (v : String) (now : ℤ)
    (h : (voter_rows d v).length = 2) :
    (calculate_fatigue_index (df_votes d) v now).burnout_detected = false := by
  rw [fatigue_burnout_proj d v now (le_of_eq h.symm)]
  have hlen : (voter_gaps d v).length = 1 := by
    rw [voter_gaps_length, h]
  obtain ⟨g, hg⟩ := List.length_eq_one.mp hlen
  have hg0 : (0 : ℤ) ≤ g :=
    voter_gaps_nonneg d v g (by rw [hg]; exact List.mem_singleton_self g)
  unfold burnout_of recent_gap avg_gap
  rw [hg]
  rw [decide_eq_false_iff_not]
  push_neg
  have hgq : (0 : ℚ) ≤ (g : ℚ) := by exact_mod_cast hg0
  simp only [List.length_singleton, List.sum_singleton, List.getLast?_singleton,
    Option.getD_some, Nat.cast_one, div_one, Nat.lt_irrefl, if_pos Nat.one_pos]
  linarith

theorem C10_two_votes_no_burnout_witness :
    (voter_rows twoVoteDataset "a").length = 2 ∧
      (calculate_fatigue_index (df_votes twoVoteDataset) "a" (40 * 86400)).burnout_detected
        = false :=
  ⟨by decide, C10_two_votes_no_burnout twoVoteDataset "a" (40 * 86400) (by decide)⟩

/-- C1: for every voter with at least 2 votes the returned fatigue score
equals the clamped weighted sum
`min(100, (longest_break/30)*30 + 50·burnout + 20·declining)`, lies in
`[0, 100]` even when the raw weighted sum exceeds 100, is `round(·, 2)` of
the raw score, and `avg_gap_days` is `round(·, 1)` of the mean gap. -/
theorem C1_fatigue_score_formula (d : Dataset) (v : String) (now : ℤ)
    (h : 2 ≤ (voter_rows d v).length) :
    (calculate_fatigue_index (df_votes d) v now).fatigue_score
        = min 100 ((listMax (voter_gaps d v) : ℚ) / 30 * 30 +
            (if burnout_of d v then 50 else 0) +
            (if trend_of d v now == "declining" then 20 else 0))
    ∧ (calculate_fatigue_index (df_votes d) v now).fatigue_score
        = pyRound (min 100 ((listMax (voter_gaps d v) : ℚ) / 30 * 30 +
            (if burnout_of d v then 50 else 0) +
            (if trend_of d v now == "declining" then 20 else 0))) 2
    ∧ 0 ≤ (calculate_fatigue_index (df_votes d) v now).fatigue_score
    ∧ (calculate_fatigue_index (df_votes d) v now).fatigue_score ≤ 100
    ∧ (calculate_fatigue_index (df_votes d) v now).avg_gap_days
        = some (pyRound (avg_gap d v) 1) := by
  have hsc : (calculate_fatigue_index (df_votes d) v now).fatigue_score
      = pyRound (min 100 ((listMax (voter_gaps d v) : ℚ) / 30 * 30 +
          (if burnout_of d v then 50 else 0) +
          (if trend_of d v now == "declining" then 20 else 0))) 2 := by
    rw [fatigue_index_spec d v now h]
  have hag : (calculate_fatigue_index (df_votes d) v now).avg_gap_days
      = some (pyRound (avg_gap d v) 1) := by
    rw [fatigue_index_spec d v now h]
  have hne : voter_gaps d v ≠ [] := by
    intro hnil
    have hl := voter_gaps_length d v
    rw [hnil] at hl
    simp at hl
    omega
  have hlb0 : 0 ≤ listMax (voter_gaps d v) :=
    voter_gaps_nonneg d v _ (listMax_mem hne)
  have hdm : (listMax (voter_gaps d v) : ℚ) / 30 * 30 = (listMax (voter_gaps d v) : ℚ) :=
    div_mul_cancel₀ _ (by norm_num)
  have hint : min 100 ((listMax (voter_gaps d v) : ℚ) / 30 * 30 +
      (if burnout_of d v then 50 else 0) +
      (if trend_of d v now == "declining" then 20 else 0))
      = ((min 100 (listMax (voter_gaps d v) +
          (if burnout_of d v then 50 else 0) +
          (if trend_of d v now == "declining" then 20 else 0)) : ℤ) : ℚ) := by
    rw [hdm]
    push_cast
    rcases Bool.eq_false_or_eq_true (burnout_of d v) with hb | hb <;>
      rcases Bool.eq_false_or_eq_true (trend_of d v now == "declining") with ht | ht <;>
        simp [hb, ht]
  have hraw : pyRound (min 100 ((listMax (voter_gaps d v) : ℚ) / 30 * 30 +
      (if burnout_of d v then 50 else 0) +
      (if trend_of d v now == "declining" then 20 else 0))) 2
      = min 100 ((listMax (voter_gaps d v) : ℚ) / 30 * 30 +
      (if burnout_of d v then 50 else 0) +
      (if trend_of d v now == "declining" then 20 else 0)) := by
    rw [hint, pyRound_intCast]
  have hform : (calculate_fatigue_index (df_votes d) v now).fatigue_score
      = min 100 ((listMax (voter_gaps d v) : ℚ) / 30 * 30 +
          (if burnout_of d v then 50 else 0) +
          (if trend_of d v now == "declining" then 20 else 0)) := hsc.trans hraw
  refine ⟨hform, hsc, ?_, ?_, hag⟩
  · rw [hform, hint]
    have hA : (0 : ℤ) ≤ (if burnout_of d v then 50 else 0) := by split <;> norm_num
    have hB : (0 : ℤ) ≤ (if trend_of d v now == "declining" then 20 else 0) := by
      split <;> norm_num
    have : (0 : ℤ) ≤ min 100 (listMax (voter_gaps d v) +
        (if burnout_of d v then 50 else 0) +
        (if trend_of d v now == "declining" then 20 else 0)) := by
      apply le_min (by norm_num)
      omega
    exact_mod_cast this
  · rw [hform, hint]
    have : min 100 (listMax (voter_gaps d v) +
        (if burnout_of d v then 50 else 0) +
        (if trend_of d v now == "declining" then 20 else 0)) ≤ (100 : ℤ) :=
      min_le_left _ _
    exact_mod_cast this

theorem C1_fatigue_score_formula_witness :
    2 ≤ (voter_rows twoVoteDataset "a").length ∧
      ((calculate_fatigue_index (df_votes twoVoteDataset) "a" (40 * 86400)).fatigue_score
          = min 100 ((listMax (voter_gaps twoVoteDataset "a") : ℚ) / 30 * 30 +
              (if burnout_of twoVoteDataset "a" then 50 else 0) +
              (if trend_of twoVoteDataset "a" (40 * 86400) == "declining" then 20 else 0))
      ∧ (calculate_fatigue_index (df_votes twoVoteDataset) "a" (40 * 86400)).fatigue_score
          = pyRound (min 100 ((listMax (voter_gaps twoVoteDataset "a") : ℚ) / 30 * 30 +
              (if burnout_of twoVoteDataset "a" then 50 else 0) +
              (if trend_of twoVoteDataset "a" (40 * 86400) == "declining" then 20 else 0))) 2
      ∧ 0 ≤ (calculate_fatigue_index (df_votes twoVoteDataset) "a" (40 * 86400)).fatigue_score
      ∧ (calculate_fatigue_index (df_votes twoVoteDataset) "a" (40 * 86400)).fatigue_score ≤ 100
      ∧ (calculate_fatigue_index (df_votes twoVoteDataset) "a" (40 * 86400)).avg_gap_days
          = some (pyRound (avg_gap twoVoteDataset "a") 1)) :=
  ⟨by decide, C1_fatigue_score_formula twoVoteDataset "a" (40 * 86400) (by decide)⟩

/-- C2: `get_high_value_targets(min_vp)` returns exactly the rows of the
merged aggregate/voting-power table satisfying
`min_vp ≤ avg_voting_power ∧ 50 < fatigue_score` (as a permutation — no
row appears or disappears), and any two adjacent rows of the output are
ordered descending by `avg_voting_power` with `fatigue_score` descending
among equal `avg_voting_power`. -/
theorem C2_targets_filter_and_sort (d : Dataset) (now min_vp : ℤ) :
    (get_high_value_targets d now min_vp).Perm
        ((merged_targets d now).filter (targetCond min_vp))
    ∧ List.Chain' (fun a b : TargetRow =>
        b.avg_voting_power ≤ a.avg_voting_power ∧
          (a.avg_voting_power = b.avg_voting_power → b.fatigue_score ≤ a.fatigue_score))
        (get_high_value_targets d now min_vp) := by
  have hweak : ∀ a b : TargetRow, targGE a b →
      b.avg_voting_power ≤ a.avg_voting_power ∧
        (a.avg_voting_power = b.avg_voting_power → b.fatigue_score ≤ a.fatigue_score) := by
    intro a b hab
    rcases hab with hlt | ⟨he, hf⟩
    · exact ⟨le_of_lt hlt, fun heq => absurd (heq ▸ hlt) (lt_irrefl _)⟩
    · exact ⟨le_of_eq he.symm, fun _ => hf⟩
  dsimp only [get_high_value_targets, merged_targets]
  by_cases he : (analyze_all_delegates (df_votes d) now).isEmpty
  · rw [if_pos he]
    have hm : analyze_all_delegates (df_votes d) now = [] := List.isEmpty_iff.mp he
    rw [hm]
    exact ⟨List.Perm.refl _, List.chain'_nil⟩
  · rw [if_neg he]
    constructor
    · exact List.perm_insertionSort targGE _
    · exact ((List.sorted_insertionSort targGE _).chain').imp hweak

/-- C9: raising `min_vp` never increases the number of returned targets:
for `min_vp1 ≤ min_vp2` the target list at `min_vp2` is at most as long
as the one at `min_vp1`. -/
theorem C9_min_vp_monotone (d : Dataset) (now : ℤ) (v1 v2 : ℤ) (h : v1 ≤ v2) :
    (get_high_value_targets d now v2).length ≤ (get_high_value_targets d now v1).length := by
  dsimp only [get_high_value_targets]
  by_cases he : (analyze_all_delegates (df_votes d) now).isEmpty
  · rw [if_pos he, if_pos he]
  · rw [if_neg he, if_neg he]
    rw [(List.perm_insertionSort targGE _).length_eq,
      (List.perm_insertionSort targGE _).length_eq]
    apply length_filter_le_of_imp
    intro a ha
    unfold targetCond at ha ⊢
    simp only [Bool.and_eq_true, decide_eq_true_eq] at ha ⊢
    exact ⟨le_trans h ha.1, ha.2⟩

theorem C9_min_vp_monotone_witness :
    (0 : ℤ) ≤ 1 ∧
      (get_high_value_targets twoVoteDataset (40 * 86400) 1).length ≤
        (get_high_value_targets twoVoteDataset (40 * 86400) 0).length :=
  ⟨by decide, C9_min_vp_monotone twoVoteDataset (40 * 86400) 0 1 (by decide)⟩

theorem enumFrom_map_snd_eq {α : Type} (n : ℕ) (l : List α) :
    (List.enumFrom n l).map Prod.snd = l := by
  induction l generalizing n with
  | nil => rfl
  | cons a t ih => simp [List.enumFrom, ih]

/-- Freezing the wall clock makes the per-iteration `datetime.now()`
reads of `analyze_all_delegates` equivalent to a single `now` value. -/
theorem analyze_all_clocked_const (rows : List VoteRow) (clock : ℕ → ℤ) (t : ℤ)
    (h : ∀ k, clock k = t) :
    analyze_all_delegates_clocked rows clock = analyze_all_delegates rows t := by
  dsimp only [analyze_all_delegates_clocked, analyze_all_delegates]
  congr 1
  have h1 : ∀ p ∈ (pdUnique (rows.map (·.voter))).enum,
      analyze_row rows p.2 (clock (3 * p.1)) (clock (3 * p.1 + 1)) (clock (3 * p.1 + 2))
        = analyze_row rows p.2 t t t := by
    intro p _
    rw [h, h, h]
  rw [List.map_congr_left h1]
  rw [show (fun p : ℕ × String => analyze_row rows p.2 t t t)
      = (fun v => analyze_row rows v t t t) ∘ Prod.snd from rfl]
  rw [← List.map_map]
  rw [show (pdUnique (rows.map (·.voter))).enum.map Prod.snd
      = pdUnique (rows.map (·.voter)) from enumFrom_map_snd_eq 0 _]

/-- C8: the analysis is deterministic once the wall clock is held
constant: two executions of `get_high_value_targets`, each performing its
own sequence of `datetime.now()` reads, produce identical rows in
identical order when every read returns the same `t`, and both equal the
run threading the single value `t` through every time-windowed
computation. -/
theorem C8_determinism (d : Dataset) (clock1 clock2 : ℕ → ℤ) (t min_vp : ℤ)
    (h1 : ∀ k, clock1 k = t) (h2 : ∀ k, clock2 k = t) :
    get_high_value_targets_clocked d clock1 min_vp
        = get_high_value_targets_clocked d clock2 min_vp
    ∧ get_high_value_targets_clocked d clock1 min_vp
        = get_high_value_targets d t min_vp := by
  have e : ∀ clock : ℕ → ℤ, (∀ k, clock k = t) →
      get_high_value_targets_clocked d clock min_vp
        = get_high_value_targets d t min_vp := by
    intro clock hc
    dsimp only [get_high_value_targets_clocked, get_high_value_targets]
    rw [analyze_all_clocked_const (df_votes d) clock t hc]
  exact ⟨(e clock1 h1).trans (e clock2 h2).symm, e clock1 h1⟩

theorem C8_determinism_witness :
    get_high_value_targets_clocked twoVoteDataset (fun _ => 0) 50000
        = get_high_value_targets_clocked twoVoteDataset (fun _ => 0) 50000
    ∧ get_high_value_targets_clocked twoVoteDataset (fun _ => 0) 50000
        = get_high_value_targets twoVoteDataset 0 50000 :=
  C8_determinism twoVoteDataset (fun _ => 0) (fun _ => 0) 0 50000
    (fun _ => rfl) (fun _ => rfl)
